import Mathlib

/-!
Shallow embedding of the aggregation slice of the Personal-Finance-Tracker
backend: the balance recalculator (src/backend/src/services/transaction.service.ts),
the budget engine (src/backend/src/services/budget.service.ts) and the
analytics aggregator (AnalyticsService, src/unnamed/part_003).

Monetary amounts are embedded as exact rationals and timestamps as integers
(milliseconds).  Database rows are lists; Prisma where-clauses become list
filters and Prisma aggregate sums become list sums.  Calendar helpers from
the external date-fns library (startOfMonth, endOfMonth, interval
enumeration) are passed as explicit parameters where they matter.
-/

namespace FinTracker

/-- Transaction type enum from the Prisma schema, used by
transaction.service.ts and AnalyticsService. -/
inductive TransactionType
  | INCOME
  | EXPENSE
  | TRANSFER
deriving DecidableEq, Repr

/-- Transaction status enum.  POSTED is the only status the aggregation
slice ever filters on; the schema is not under src, so a second placeholder
status stands for all non-POSTED statuses. -/
inductive TransactionStatus
  | PENDING
  | POSTED
deriving DecidableEq, Repr

/-- Budget period enum from the Prisma schema. -/
inductive BudgetPeriod
  | WEEKLY
  | MONTHLY
  | YEARLY
deriving DecidableEq, Repr

/-- A transaction row.  Plain-data columns that no aggregation reads
(description, merchantName, notes, tags, receiptUrl, currency, the tax
fields) are omitted. -/
structure Txn where
  id : ℕ
  userId : ℕ
  accountId : ℕ
  amount : ℚ
  type : TransactionType
  status : TransactionStatus
  date : ℤ
  categoryId : Option ℕ
deriving DecidableEq, Repr

/-- An account row: id, owner, cached balance, active flag. -/
structure Account where
  id : ℕ
  userId : ℕ
  balance : ℚ
  isActive : Bool
deriving DecidableEq, Repr

/-- A category row: id, optional owner (none = system-wide), system flag,
name. -/
structure Category where
  id : ℕ
  userId : Option ℕ
  isSystem : Bool
  name : String
deriving DecidableEq, Repr

/-- Sum of the amount column over a list of transaction rows, the embedding
of a Prisma aggregate with a sum over amount (an absent result row sums to
0, matching the Number(res.sum.amount or 0) coercion). -/
def sumAmounts (l : List Txn) : ℚ :=
  (l.map (fun t => t.amount)).sum

/-- Embedding of TransactionService.updateAccountBalance
(transaction.service.ts lines 352-380): the recomputed balance is the sum
of POSTED INCOME amounts of the account minus the sum of its POSTED
EXPENSE amounts. -/
def updateAccountBalance (accountId : ℕ) (txs : List Txn) : ℚ :=
  let totalIncome := sumAmounts (txs.filter fun t =>
    decide (t.accountId = accountId ∧ t.type = TransactionType.INCOME ∧
      t.status = TransactionStatus.POSTED))
  let totalExpenses := sumAmounts (txs.filter fun t =>
    decide (t.accountId = accountId ∧ t.type = TransactionType.EXPENSE ∧
      t.status = TransactionStatus.POSTED))
  totalIncome - totalExpenses

/-- Signed contribution of one transaction to a balance, following the
words of the specification: INCOME adds its amount, EXPENSE subtracts it,
TRANSFER contributes nothing. -/
def signedContribution (t : Txn) : ℚ :=
  match t.type with
  | TransactionType.INCOME => t.amount
  | TransactionType.EXPENSE => -t.amount
  | TransactionType.TRANSFER => 0

/-- C1: after recalculation, the stored balance of an account equals the
sum over its POSTED transactions of the signed contribution (amount for
INCOME, minus amount for EXPENSE, zero for TRANSFER). -/
theorem balance_eq_signed_posted_sum (aid : ℕ) (txs : List Txn) :
    updateAccountBalance aid txs =
      ((txs.filter fun t =>
        decide (t.accountId = aid ∧ t.status = TransactionStatus.POSTED)).map
          signedContribution).sum := by
  induction txs with
  | nil => simp [updateAccountBalance, sumAmounts]
  | cons t ts ih =>
    by_cases ha : t.accountId = aid
    · by_cases hs : t.status = TransactionStatus.POSTED
      · cases hty : t.type <;>
          simp [updateAccountBalance, sumAmounts, List.filter_cons, ha, hs, hty,
            signedContribution] at ih ⊢ <;>
          linarith [ih]
      · simp [updateAccountBalance, sumAmounts, List.filter_cons, ha, hs] at ih ⊢
        linarith [ih]
    · simp [updateAccountBalance, sumAmounts, List.filter_cons, ha] at ih ⊢
      linarith [ih]

/-- Scenario from the specification: one income of 3500 and expenses 45.99,
120.50, 35.00 recalculate to a balance of 3298.51. -/
example :
    updateAccountBalance 1
      [ { id := 1, userId := 1, accountId := 1, amount := 3500,
          type := TransactionType.INCOME, status := TransactionStatus.POSTED,
          date := 0, categoryId := none },
        { id := 2, userId := 1, accountId := 1, amount := 4599/100,
          type := TransactionType.EXPENSE, status := TransactionStatus.POSTED,
          date := 1, categoryId := none },
        { id := 3, userId := 1, accountId := 1, amount := 1205/10,
          type := TransactionType.EXPENSE, status := TransactionStatus.POSTED,
          date := 2, categoryId := none },
        { id := 4, userId := 1, accountId := 1, amount := 35,
          type := TransactionType.EXPENSE, status := TransactionStatus.POSTED,
          date := 3, categoryId := none } ] = 329851/100 := by
  simp [updateAccountBalance, sumAmounts, List.filter_cons, List.filter_nil]
  norm_num

/-- The per-user slice of the data store a transaction mutation runs
against: the transaction rows, the account rows and the category rows. -/
structure Store where
  txs : List Txn
  accounts : List Account
  categories : List Category
deriving DecidableEq, Repr

/-- Stored balance of an account row in the store (first row with the
id). -/
def lookupBalance (s : Store) (aid : ℕ) : Option ℚ :=
  (s.accounts.find? fun a => a.id == aid).map fun a => a.balance

/-- Embedding of the account write at the end of updateAccountBalance: the
balance recomputed from the current transaction rows overwrites the stored
balance of the account row. -/
def Store.setBalance (s : Store) (aid : ℕ) : Store :=
  { s with accounts := s.accounts.map fun a =>
      if a.id = aid then { a with balance := updateAccountBalance aid s.txs } else a }

/-- Ownership check shared by createTransaction and updateTransaction: the
account row with the given id that belongs to the user
(prisma.account.findFirst with id and userId). -/
def findAccount (s : Store) (userId aid : ℕ) : Option Account :=
  s.accounts.find? fun a => a.id == aid && a.userId == userId

/-- Category check: the category with the given id that is owned by the
user or is a system category (prisma.category.findFirst with id and an OR
of userId and isSystem). -/
def findCategory (s : Store) (userId cid : ℕ) : Option Category :=
  s.categories.find? fun c => c.id == cid && (c.userId == some userId || c.isSystem)

/-- Gate for an optional account reference in a payload: passes when the
field is absent, otherwise when the referenced account belongs to the
user. -/
def accountGate (s : Store) (userId : ℕ) (aid : Option ℕ) : Bool :=
  match aid with
  | some a => (findAccount s userId a).isSome
  | none => true

/-- Gate for an optional category reference in a payload: passes when the
field is absent, otherwise when the referenced category resolves for the
user. -/
def categoryGate (s : Store) (userId : ℕ) (cid : Option ℕ) : Bool :=
  match cid with
  | some c => (findCategory s userId c).isSome
  | none => true

/-- Creation payload, the embedding of CreateTransactionData
(transaction.service.ts lines 6-20).  The interface has no status field.
Plain-data columns that no aggregation reads are omitted as in Txn. -/
structure CreateTransactionData where
  accountId : ℕ
  amount : ℚ
  type : TransactionType
  date : ℤ
  categoryId : Option ℕ
deriving DecidableEq, Repr

/-- Happy path of createTransaction: insert the row with status POSTED set
unconditionally by the service, then recalculate the balance of the target
account. -/
def insertAndRecalc (s : Store) (userId txId : ℕ) (data : CreateTransactionData) :
    Txn × Store :=
  let tx : Txn :=
    { id := txId, userId := userId, accountId := data.accountId,
      amount := data.amount, type := data.type,
      status := TransactionStatus.POSTED, date := data.date,
      categoryId := data.categoryId }
  let s1 : Store := { s with txs := tx :: s.txs }
  (tx, s1.setBalance data.accountId)

/-- Embedding of TransactionService.createTransaction (lines 42-89):
verify the account and the optional category (404 on failure), create the
row, then update the account balance. -/
def createTransaction (s : Store) (userId txId : ℕ) (data : CreateTransactionData) :
    Except ℕ (Txn × Store) :=
  if accountGate s userId (some data.accountId) &&
      categoryGate s userId data.categoryId then
    Except.ok (insertAndRecalc s userId txId data)
  else
    Except.error 404

/-- Update payload, the embedding of UpdateTransactionData, a Partial of
CreateTransactionData: every field optional. -/
structure UpdateTransactionData where
  accountId : Option ℕ
  amount : Option ℚ
  type : Option TransactionType
  date : Option ℤ
  categoryId : Option ℕ
deriving DecidableEq, Repr

/-- Merge of an update payload into an existing row, the embedding of the
prisma update writing exactly the provided fields. -/
def applyUpdate (t : Txn) (d : UpdateTransactionData) : Txn :=
  { t with
    accountId := d.accountId.getD t.accountId,
    amount := d.amount.getD t.amount,
    type := d.type.getD t.type,
    date := d.date.getD t.date,
    categoryId := match d.categoryId with
      | some c => some c
      | none => t.categoryId }

/-- Accounts whose balances updateTransaction recalculates, in call order
(transaction.service.ts lines 262-268): none unless the payload carries
amount or accountId; then the account of the updated row, and additionally
the previous account when the account reference changed.  The truthiness
test on the accountId string is embedded as presence of the optional field
(account ids are nonempty strings). -/
def recalcTargets (existing : Txn) (d : UpdateTransactionData) : List ℕ :=
  if d.amount.isSome || d.accountId.isSome then
    (applyUpdate existing d).accountId ::
      (match d.accountId with
       | some a => if a = existing.accountId then [] else [existing.accountId]
       | none => [])
  else []

/-- Happy path of updateTransaction: write the merged row, then run the
balance recalculations the service issues. -/
def applyUpdateAndRecalc (s : Store) (existing : Txn) (txId : ℕ)
    (d : UpdateTransactionData) : Txn × Store :=
  let updated := applyUpdate existing d
  let s1 : Store :=
    { s with txs := s.txs.map fun t => if t.id = txId then applyUpdate t d else t }
  (updated, (recalcTargets existing d).foldl Store.setBalance s1)

/-- Embedding of TransactionService.updateTransaction (lines 207-271):
resolve the row for the user (404 otherwise), verify a changed account or
category reference, write the merged row, and recalculate balances only
when the payload carries amount or accountId. -/
def updateTransaction (s : Store) (userId txId : ℕ) (d : UpdateTransactionData) :
    Except ℕ (Txn × Store) :=
  match s.txs.find? fun t => t.id == txId && t.userId == userId with
  | none => Except.error 404
  | some existing =>
    if accountGate s userId d.accountId && categoryGate s userId d.categoryId then
      Except.ok (applyUpdateAndRecalc s existing txId d)
    else
      Except.error 404

/-- Embedding of TransactionService.deleteTransaction (lines 276-294):
resolve the row for the user (404 otherwise), delete it, then recalculate
the balance of its account. -/
def deleteTransaction (s : Store) (userId txId : ℕ) : Except ℕ Store :=
  match s.txs.find? fun t => t.id == txId && t.userId == userId with
  | none => Except.error 404
  | some tx =>
    let s1 : Store := { s with txs := s.txs.filter fun t => !(t.id == txId) }
    Except.ok (s1.setBalance tx.accountId)

theorem setBalance_txs (s : Store) (aid : ℕ) : (s.setBalance aid).txs = s.txs := rfl

theorem setBalance_categories (s : Store) (aid : ℕ) :
    (s.setBalance aid).categories = s.categories := rfl

theorem lookup_after_set (l : List Account) (aid : ℕ) (b : ℚ)
    (h : (l.find? fun a => a.id == aid).isSome = true) :
    (((l.map fun a => if a.id = aid then { a with balance := b } else a).find?
        fun a => a.id == aid).map fun a => a.balance) = some b := by
  induction l with
  | nil => simp at h
  | cons x xs ih =>
    rw [List.map_cons]
    by_cases hx : x.id = aid
    · rw [List.find?_cons_of_pos _ (by simp [hx])]
      simp [hx]
    · rw [List.find?_cons_of_neg _ (by simp [hx])]
      apply ih
      rw [List.find?_cons_of_neg _ (by simp [hx])] at h
      exact h

theorem lookup_after_set_other (l : List Account) (aid other : ℕ) (b : ℚ)
    (hno : aid ≠ other) :
    (((l.map fun a => if a.id = aid then { a with balance := b } else a).find?
        fun a => a.id == other).map fun a => a.balance) =
      ((l.find? fun a => a.id == other).map fun a => a.balance) := by
  induction l with
  | nil => simp
  | cons x xs ih =>
    rw [List.map_cons]
    by_cases hx : x.id = aid
    · rw [List.find?_cons_of_neg _ (by rw [if_pos hx]; simp [hx, hno]),
        List.find?_cons_of_neg _ (by simp [hx, hno])]
      exact ih
    · by_cases ho : x.id = other
      · rw [List.find?_cons_of_pos _ (by rw [if_neg hx]; simp [ho]),
          List.find?_cons_of_pos _ (by simp [ho])]
        simp [hx]
      · rw [List.find?_cons_of_neg _ (by rw [if_neg hx]; simp [ho]),
          List.find?_cons_of_neg _ (by simp [ho])]
        exact ih

theorem lookupBalance_setBalance_self (s : Store) (aid : ℕ)
    (h : (lookupBalance s aid).isSome = true) :
    lookupBalance (s.setBalance aid) aid = some (updateAccountBalance aid s.txs) := by
  have h2 : (s.accounts.find? fun a => a.id == aid).isSome = true := by
    unfold lookupBalance at h
    simpa using h
  exact lookup_after_set s.accounts aid _ h2

theorem lookupBalance_setBalance_other (s : Store) (aid other : ℕ) (hno : aid ≠ other) :
    lookupBalance (s.setBalance aid) other = lookupBalance s other :=
  lookup_after_set_other s.accounts aid other _ hno

theorem lookupBalance_setBalance_isSome (s : Store) (aid other : ℕ)
    (h : (lookupBalance s other).isSome = true) :
    (lookupBalance (s.setBalance aid) other).isSome = true := by
  by_cases he : aid = other
  · subst he
    rw [lookupBalance_setBalance_self s aid h]
    rfl
  · rw [lookupBalance_setBalance_other s aid other he]
    exact h

theorem foldl_setBalance_txs (l : List ℕ) (s : Store) :
    (l.foldl Store.setBalance s).txs = s.txs := by
  induction l generalizing s with
  | nil => rfl
  | cons b rest ih => simpa [List.foldl] using ih (s.setBalance b)

theorem lookup_foldl_setBalance_notmem (l : List ℕ) (s : Store) (aid : ℕ)
    (h : aid ∉ l) :
    lookupBalance (l.foldl Store.setBalance s) aid = lookupBalance s aid := by
  induction l generalizing s with
  | nil => rfl
  | cons b rest ih =>
    have hb : b ≠ aid := by
      intro he; exact h (by simp [he])
    have hrest : aid ∉ rest := by
      intro hm; exact h (by simp [hm])
    calc lookupBalance ((b :: rest).foldl Store.setBalance s) aid
        = lookupBalance (rest.foldl Store.setBalance (s.setBalance b)) aid := rfl
      _ = lookupBalance (s.setBalance b) aid := ih (s.setBalance b) hrest
      _ = lookupBalance s aid := lookupBalance_setBalance_other s b aid hb

theorem lookup_foldl_setBalance_mem (l : List ℕ) (s : Store) (aid : ℕ)
    (hm : aid ∈ l) (hs : (lookupBalance s aid).isSome = true) :
    lookupBalance (l.foldl Store.setBalance s) aid =
      some (updateAccountBalance aid s.txs) := by
  induction l generalizing s with
  | nil => cases hm
  | cons b rest ih =>
    by_cases hmem : aid ∈ rest
    · have : lookupBalance (rest.foldl Store.setBalance (s.setBalance b)) aid =
          some (updateAccountBalance aid (s.setBalance b).txs) :=
        ih (s.setBalance b) hmem (lookupBalance_setBalance_isSome s b aid hs)
      simpa [setBalance_txs] using this
    · have hb : b = aid := by
        rcases List.mem_cons.mp hm with h | h
        · exact h.symm
        · exact absurd h hmem
      subst hb
      calc lookupBalance ((b :: rest).foldl Store.setBalance s) b
          = lookupBalance (rest.foldl Store.setBalance (s.setBalance b)) b := rfl
        _ = lookupBalance (s.setBalance b) b :=
            lookup_foldl_setBalance_notmem rest (s.setBalance b) b hmem
        _ = some (updateAccountBalance b s.txs) := lookupBalance_setBalance_self s b hs

/-- C10: every transaction that createTransaction succeeds in creating has
status POSTED (the creation payload carries no status field and the
service writes POSTED unconditionally), the created row is stored, and it
therefore passes the POSTED filter every aggregation applies. -/
theorem created_transaction_is_posted (s : Store) (userId txId : ℕ)
    (data : CreateTransactionData) (tx : Txn) (s2 : Store)
    (h : createTransaction s userId txId data = Except.ok (tx, s2)) :
    tx.status = TransactionStatus.POSTED ∧ tx ∈ s2.txs ∧
      decide (tx.status = TransactionStatus.POSTED) = true := by
  unfold createTransaction at h
  split at h
  · rw [Except.ok.injEq] at h
    have h1 : tx = (insertAndRecalc s userId txId data).1 := by
      rw [h]
    have h2 : s2 = (insertAndRecalc s userId txId data).2 := by
      rw [h]
    subst h1
    subst h2
    refine ⟨rfl, ?_, rfl⟩
    show (insertAndRecalc s userId txId data).1 ∈
      ((insertAndRecalc s userId txId data).2).txs
    unfold insertAndRecalc
    simp [Store.setBalance]
  · cases h

/-- Concrete store for the creation witness: one account owned by user 1,
no categories. -/
def exStoreC10 : Store :=
  { txs := [],
    accounts := [{ id := 1, userId := 1, balance := 0, isActive := true }],
    categories := [] }

/-- Concrete creation payload for the witness. -/
def exDataC10 : CreateTransactionData :=
  { accountId := 1, amount := 50, type := TransactionType.EXPENSE,
    date := 0, categoryId := none }

/-- Concrete transaction row produced by the creation witness. -/
def exTxC10 : Txn :=
  { id := 7, userId := 1, accountId := 1, amount := 50,
    type := TransactionType.EXPENSE, status := TransactionStatus.POSTED,
    date := 0, categoryId := none }

/-- Witness for C10 at a concrete input. -/
theorem created_transaction_is_posted_witness :
    exTxC10.status = TransactionStatus.POSTED ∧
      exTxC10 ∈ (Store.setBalance { exStoreC10 with txs := [exTxC10] } 1).txs ∧
      decide (exTxC10.status = TransactionStatus.POSTED) = true :=
  created_transaction_is_posted exStoreC10 1 7 exDataC10 exTxC10
    (Store.setBalance { exStoreC10 with txs := [exTxC10] } 1) rfl

theorem findAccount_isSome_lookup (s : Store) (uid aid : ℕ)
    (h : (findAccount s uid aid).isSome = true) :
    (lookupBalance s aid).isSome = true := by
  unfold findAccount at h
  unfold lookupBalance
  rw [Option.isSome_map']
  simp only [List.find?_isSome] at h ⊢
  obtain ⟨x, hx, hcond⟩ := h
  simp only [Bool.and_eq_true] at hcond
  exact ⟨x, hx, hcond.1⟩

/-- Store for the C5 counterexample: one account with a correct cached
balance of 100 coming from a single POSTED income of 100. -/
def exStoreC5 : Store :=
  { txs := [ { id := 1, userId := 1, accountId := 1, amount := 100,
               type := TransactionType.INCOME, status := TransactionStatus.POSTED,
               date := 0, categoryId := none } ],
    accounts := [{ id := 1, userId := 1, balance := 100, isActive := true }],
    categories := [] }

/-- Update payload for the C5 counterexample: only the type changes, from
INCOME to EXPENSE; amount and accountId are absent. -/
def exUpdC5 : UpdateTransactionData :=
  { accountId := none, amount := none, type := some TransactionType.EXPENSE,
    date := none, categoryId := none }

/-- The transaction row after the type-only update. -/
def exTxC5 : Txn :=
  { id := 1, userId := 1, accountId := 1, amount := 100,
    type := TransactionType.EXPENSE, status := TransactionStatus.POSTED,
    date := 0, categoryId := none }

/-- The store after the type-only update: the row now reads EXPENSE but the
cached balance is untouched. -/
def exStoreC5after : Store :=
  { txs := [exTxC5],
    accounts := [{ id := 1, userId := 1, balance := 100, isActive := true }],
    categories := [] }

/-- C5 counterexample: a type-only update succeeds, mutates the account
transaction set (the correct balance is now -100), yet the stored balance
of the touched account stays 100 — no recalculation ran. -/
theorem update_without_amount_skips_recalc :
    updateTransaction exStoreC5 1 1 exUpdC5 = Except.ok (exTxC5, exStoreC5after) ∧
      lookupBalance exStoreC5after 1 = some 100 ∧
      updateAccountBalance 1 exStoreC5after.txs = -100 := by
  refine ⟨by rfl, by decide, ?_⟩
  simp [updateAccountBalance, sumAmounts, exStoreC5after, exTxC5, List.filter_cons]

/-- C5 amended: create and delete always recalculate the balance of the
account of the mutated row; update recalculates only when the payload
carries amount or accountId — then the account of the updated row is
recalculated, and additionally the previous account when the account
reference changed — and otherwise leaves every stored balance untouched. -/
theorem recalc_after_mutation :
    (∀ (s : Store) (userId txId : ℕ) (data : CreateTransactionData) (tx : Txn)
        (s2 : Store),
       createTransaction s userId txId data = Except.ok (tx, s2) →
       lookupBalance s2 data.accountId =
         some (updateAccountBalance data.accountId s2.txs)) ∧
    (∀ (s : Store) (userId txId : ℕ) (s2 : Store) (tx : Txn),
       (∀ t ∈ s.txs, (lookupBalance s t.accountId).isSome = true) →
       (s.txs.find? fun t => t.id == txId && t.userId == userId) = some tx →
       deleteTransaction s userId txId = Except.ok s2 →
       lookupBalance s2 tx.accountId =
         some (updateAccountBalance tx.accountId s2.txs)) ∧
    (∀ (s : Store) (userId txId : ℕ) (d : UpdateTransactionData)
        (existing tx : Txn) (s2 : Store),
       (∀ t ∈ s.txs, (lookupBalance s t.accountId).isSome = true) →
       (s.txs.find? fun t => t.id == txId && t.userId == userId) = some existing →
       updateTransaction s userId txId d = Except.ok (tx, s2) →
       ((d.amount.isSome || d.accountId.isSome) = true →
          lookupBalance s2 tx.accountId =
            some (updateAccountBalance tx.accountId s2.txs)) ∧
       (∀ a : ℕ, d.accountId = some a → a ≠ existing.accountId →
          lookupBalance s2 existing.accountId =
            some (updateAccountBalance existing.accountId s2.txs)) ∧
       ((d.amount.isSome || d.accountId.isSome) = false →
          s2.accounts = s.accounts)) := by
  refine ⟨?_, ?_, ?_⟩
  · intro s uid tid data tx s2 h
    unfold createTransaction at h
    split at h
    · rename_i hg
      rw [Except.ok.injEq] at h
      have h2 : s2 = (insertAndRecalc s uid tid data).2 := by rw [h]
      subst h2
      have hsome : (lookupBalance s data.accountId).isSome = true := by
        apply findAccount_isSome_lookup s uid
        have := (Bool.and_eq_true _ _).mp hg
        simpa [accountGate] using this.1
      exact lookupBalance_setBalance_self _ data.accountId hsome
    · cases h
  · intro s uid tid s2 tx hw hfind h
    unfold deleteTransaction at h
    rw [hfind] at h
    dsimp only at h
    rw [Except.ok.injEq] at h
    subst h
    have hmem : tx ∈ s.txs := List.mem_of_find?_eq_some hfind
    exact lookupBalance_setBalance_self _ tx.accountId (hw tx hmem)
  · intro s uid tid d existing tx s2 hw hfind h
    unfold updateTransaction at h
    rw [hfind] at h
    dsimp only at h
    split at h
    · rename_i hg
      rw [Except.ok.injEq, Prod.mk.injEq] at h
      obtain ⟨htx, hs2⟩ := h
      have hmem : existing ∈ s.txs := List.mem_of_find?_eq_some hfind
      have e1 : (applyUpdateAndRecalc s existing tid d).1 = applyUpdate existing d := rfl
      have e2 : (applyUpdateAndRecalc s existing tid d).2 =
          (recalcTargets existing d).foldl Store.setBalance
            { s with txs := s.txs.map fun t => if t.id = tid then applyUpdate t d else t } :=
        rfl
      refine ⟨?_, ?_, ?_⟩
      · intro hcond
        have htargets : recalcTargets existing d =
            (applyUpdate existing d).accountId ::
              (match d.accountId with
               | some a => if a = existing.accountId then [] else [existing.accountId]
               | none => []) := by
          unfold recalcTargets
          rw [if_pos hcond]
        have hsome : (lookupBalance s (applyUpdate existing d).accountId).isSome = true := by
          cases hda : d.accountId with
          | none =>
            have he : (applyUpdate existing d).accountId = existing.accountId := by
              simp [applyUpdate, hda]
            rw [he]
            exact hw existing hmem
          | some a =>
            have haid : (applyUpdate existing d).accountId = a := by
              simp [applyUpdate, hda]
            rw [haid]
            apply findAccount_isSome_lookup s uid
            have hb := (Bool.and_eq_true _ _).mp hg
            simpa [accountGate, hda] using hb.1
        rw [← htx, ← hs2, e1, e2, htargets, foldl_setBalance_txs]
        exact lookup_foldl_setBalance_mem _ _ _ (by simp) hsome
      · intro a hda hne
        have hcond : (d.amount.isSome || d.accountId.isSome) = true := by
          rw [hda]; simp
        have htargets : recalcTargets existing d =
            [(applyUpdate existing d).accountId, existing.accountId] := by
          unfold recalcTargets
          rw [if_pos hcond, hda]
          dsimp only
          rw [if_neg hne]
        rw [← hs2, e2, htargets, foldl_setBalance_txs]
        exact lookup_foldl_setBalance_mem _ _ _ (by simp) (hw existing hmem)
      · intro hcond
        have htargets : recalcTargets existing d = [] := by
          unfold recalcTargets
          rw [if_neg (by simp [hcond])]
        rw [← hs2, e2, htargets]
        rfl
    · exact Except.noConfusion h

/-- Transaction row for the C5 witness scenario. -/
def exTxC5w : Txn :=
  { id := 1, userId := 1, accountId := 1, amount := 100,
    type := TransactionType.INCOME, status := TransactionStatus.POSTED,
    date := 0, categoryId := none }

/-- Store for the C5 witness scenario: two accounts of user 1, the income
row sitting on account 1. -/
def exStoreC5w : Store :=
  { txs := [exTxC5w],
    accounts := [ { id := 1, userId := 1, balance := 100, isActive := true },
                  { id := 2, userId := 1, balance := 0, isActive := true } ],
    categories := [] }

/-- Update payload moving the transaction from account 1 to account 2. -/
def exUpdC5w : UpdateTransactionData :=
  { accountId := some 2, amount := none, type := none, date := none,
    categoryId := none }

/-- Store after the account-moving update of the C5 witness. -/
def exStoreC5wafter : Store :=
  (applyUpdateAndRecalc exStoreC5w exTxC5w 1 exUpdC5w).2

/-- Witness for the amended C5 at a concrete input: after an update that
moves a transaction between accounts, both account balances are
recalculated. -/
theorem recalc_after_mutation_witness :
    lookupBalance exStoreC5wafter 2 =
        some (updateAccountBalance 2 exStoreC5wafter.txs) ∧
      lookupBalance exStoreC5wafter 1 =
        some (updateAccountBalance 1 exStoreC5wafter.txs) := by
  have h := recalc_after_mutation.2.2 exStoreC5w 1 1 exUpdC5w exTxC5w
    (applyUpdateAndRecalc exStoreC5w exTxC5w 1 exUpdC5w).1 exStoreC5wafter
    (by decide) rfl rfl
  exact ⟨h.1 rfl, h.2.1 2 rfl (by decide)⟩

/-- A budget row.  The rollover flag plays no part in any computation and
is omitted; createdAt ordering of getBudgets does not affect any derived
field and is omitted as well. -/
structure Budget where
  id : ℕ
  userId : ℕ
  name : String
  amount : ℚ
  period : BudgetPeriod
  startDate : ℤ
  endDate : Option ℤ
  categoryId : Option ℕ
  alertEnabled : Bool
  alertThreshold : Option ℚ
deriving DecidableEq, Repr

/-- End-date filter of calculateSpending: absent end date imposes no upper
bound. -/
def endDateOk (b : Budget) (t : Txn) : Bool :=
  match b.endDate with
  | some e => decide (t.date ≤ e)
  | none => true

/-- Category scope filter of calculateSpending: a category-scoped budget
only counts transactions of that category. -/
def categoryOk (b : Budget) (t : Txn) : Bool :=
  match b.categoryId with
  | some c => decide (t.categoryId = some c)
  | none => true

/-- Embedding of BudgetService.calculateSpending (budget.service.ts lines
229-255): the sum of the owner's POSTED EXPENSE amounts on or after the
budget start date, bounded by the optional end date and optional category
scope. -/
def calculateSpending (userId : ℕ) (b : Budget) (txs : List Txn) : ℚ :=
  sumAmounts (txs.filter fun t =>
    decide (t.userId = userId) && decide (t.type = TransactionType.EXPENSE) &&
      decide (t.status = TransactionStatus.POSTED) &&
      decide (b.startDate ≤ t.date) && endDateOk b t && categoryOk b t)

/-- IEEE-754 special values that JavaScript division can produce, next to
ordinary (here exact-rational) numbers. -/
inductive JsNum
  | num (q : ℚ)
  | posInf
  | negInf
  | nan
deriving DecidableEq, Repr

/-- JavaScript division: a finite nonzero numerator over zero gives a
signed infinity, zero over zero gives NaN. -/
def jsDiv (a b : ℚ) : JsNum :=
  if b = 0 then
    if 0 < a then JsNum.posInf
    else if a < 0 then JsNum.negInf
    else JsNum.nan
  else JsNum.num (a / b)

/-- JavaScript multiplication of a possibly non-finite value by a finite
constant. -/
def jsMulNum (x : JsNum) (c : ℚ) : JsNum :=
  match x with
  | JsNum.num q => JsNum.num (q * c)
  | JsNum.posInf =>
    if 0 < c then JsNum.posInf else if c < 0 then JsNum.negInf else JsNum.nan
  | JsNum.negInf =>
    if 0 < c then JsNum.negInf else if c < 0 then JsNum.posInf else JsNum.nan
  | JsNum.nan => JsNum.nan

/-- JavaScript comparison x >= c against a finite constant: true for
positive infinity, false for negative infinity and NaN. -/
def jsGe (x : JsNum) (c : ℚ) : Bool :=
  match x with
  | JsNum.num q => decide (c ≤ q)
  | JsNum.posInf => true
  | JsNum.negInf => false
  | JsNum.nan => false

/-- A budget with its derived progress fields, the embedding of
BudgetWithProgress. -/
structure BudgetProgress where
  budget : Budget
  spent : ℚ
  remaining : ℚ
  percentageUsed : JsNum
  isOverBudget : Bool
deriving DecidableEq, Repr

/-- Derived progress fields as computed inside getBudgets and getBudget
(budget.service.ts lines 80-95 and 118-129): spent from
calculateSpending, remaining as amount minus spent, percentageUsed as
spent over amount times 100 with JavaScript division semantics, over
budget as spent strictly above amount. -/
def budgetProgress (userId : ℕ) (b : Budget) (txs : List Txn) : BudgetProgress :=
  let spent := calculateSpending userId b txs
  { budget := b,
    spent := spent,
    remaining := b.amount - spent,
    percentageUsed := jsMulNum (jsDiv spent b.amount) 100,
    isOverBudget := decide (b.amount < spent) }

/-- Embedding of BudgetService.getBudgets (lines 60-98): the budgets of
the user, optionally filtered by period, each with progress computed. -/
def getBudgets (userId : ℕ) (period : Option BudgetPeriod) (budgets : List Budget)
    (txs : List Txn) : List BudgetProgress :=
  ((budgets.filter fun b =>
      decide (b.userId = userId) &&
        match period with
        | some p => decide (b.period = p)
        | none => true).map
    fun b => budgetProgress userId b txs)

/-- Embedding of BudgetService.getBudget (lines 103-130): resolve the
budget for the user (404 otherwise) and compute its progress. -/
def getBudget (userId budgetId : ℕ) (budgets : List Budget) (txs : List Txn) :
    Except ℕ BudgetProgress :=
  match budgets.find? fun b => b.id == budgetId && b.userId == userId with
  | none => Except.error 404
  | some b => Except.ok (budgetProgress userId b txs)

theorem budgetProgress_spec (userId : ℕ) (b : Budget) (txs : List Txn)
    (hpos : 0 < b.amount) :
    (budgetProgress userId b txs).spent = calculateSpending userId b txs ∧
      (budgetProgress userId b txs).remaining + (budgetProgress userId b txs).spent =
        b.amount ∧
      (budgetProgress userId b txs).percentageUsed =
        JsNum.num (calculateSpending userId b txs / b.amount * 100) ∧
      ((budgetProgress userId b txs).isOverBudget = true ↔
        b.amount < calculateSpending userId b txs) := by
  refine ⟨rfl, ?_, ?_, ?_⟩
  · show b.amount - calculateSpending userId b txs + calculateSpending userId b txs =
      b.amount
    ring
  · show jsMulNum (jsDiv (calculateSpending userId b txs) b.amount) 100 = _
    rw [jsDiv, if_neg (ne_of_gt hpos)]
    rfl
  · show decide (b.amount < calculateSpending userId b txs) = true ↔ _
    exact decide_eq_true_iff

/-- C2: every budget returned by getBudgets or getBudget with positive
amount satisfies remaining + spent = amount, percentageUsed =
spent / amount * 100 (a finite number), and isOverBudget exactly when
spent exceeds amount, with spent the value of calculateSpending. -/
theorem budget_progress_fields (userId : ℕ) (period : Option BudgetPeriod)
    (budgets : List Budget) (txs : List Txn) :
    (∀ bp ∈ getBudgets userId period budgets txs, 0 < bp.budget.amount →
       bp.spent = calculateSpending userId bp.budget txs ∧
         bp.remaining + bp.spent = bp.budget.amount ∧
         bp.percentageUsed = JsNum.num (bp.spent / bp.budget.amount * 100) ∧
         (bp.isOverBudget = true ↔ bp.budget.amount < bp.spent)) ∧
    (∀ (budgetId : ℕ) (bp : BudgetProgress),
       getBudget userId budgetId budgets txs = Except.ok bp →
       0 < bp.budget.amount →
       bp.spent = calculateSpending userId bp.budget txs ∧
         bp.remaining + bp.spent = bp.budget.amount ∧
         bp.percentageUsed = JsNum.num (bp.spent / bp.budget.amount * 100) ∧
         (bp.isOverBudget = true ↔ bp.budget.amount < bp.spent)) := by
  constructor
  · intro bp hmem hpos
    unfold getBudgets at hmem
    obtain ⟨b, hb, rfl⟩ := List.mem_map.mp hmem
    have h := budgetProgress_spec userId b txs hpos
    exact ⟨h.1, h.2.1, h.2.2.1, h.2.2.2⟩
  · intro bid bp h hpos
    unfold getBudget at h
    split at h
    · exact Except.noConfusion h
    · rename_i b hb
      rw [Except.ok.injEq] at h
      subst h
      have h2 := budgetProgress_spec userId b txs hpos
      exact ⟨h2.1, h2.2.1, h2.2.2.1, h2.2.2.2⟩

/-- Budget for the C2 witness: limit 500, no category scope. -/
def exBudgetC2 : Budget :=
  { id := 1, userId := 1, name := "Food", amount := 500,
    period := BudgetPeriod.MONTHLY, startDate := 0, endDate := none,
    categoryId := none, alertEnabled := true, alertThreshold := none }

/-- Transactions for the C2 witness: one POSTED expense of 45.99 in
scope. -/
def exTxsC2 : List Txn :=
  [ { id := 1, userId := 1, accountId := 1, amount := 4599/100,
      type := TransactionType.EXPENSE, status := TransactionStatus.POSTED,
      date := 5, categoryId := none } ]

/-- Witness for C2 at a concrete input. -/
theorem budget_progress_fields_witness :
    (budgetProgress 1 exBudgetC2 exTxsC2).remaining +
        (budgetProgress 1 exBudgetC2 exTxsC2).spent = 500 ∧
      (budgetProgress 1 exBudgetC2 exTxsC2).percentageUsed =
        JsNum.num ((budgetProgress 1 exBudgetC2 exTxsC2).spent / 500 * 100) := by
  have h := (budget_progress_fields 1 none [exBudgetC2] exTxsC2).1
    (budgetProgress 1 exBudgetC2 exTxsC2)
    (by rw [show getBudgets 1 none [exBudgetC2] exTxsC2 =
          [budgetProgress 1 exBudgetC2 exTxsC2] from rfl]
        exact List.mem_cons_self _ _)
    (by show (0 : ℚ) < 500
        norm_num)
  exact ⟨h.2.1, h.2.2.1⟩

/-- Scenario from the specification: a spent of 45.99 against a limit of
500 leaves remaining 454.01 and is not over budget. -/
example :
    (budgetProgress 1 exBudgetC2 exTxsC2).spent = 4599/100 ∧
      (budgetProgress 1 exBudgetC2 exTxsC2).remaining = 45401/100 ∧
      (budgetProgress 1 exBudgetC2 exTxsC2).isOverBudget = false := by
  refine ⟨?_, ?_, ?_⟩ <;>
    norm_num [budgetProgress, calculateSpending, sumAmounts, exTxsC2, exBudgetC2,
      endDateOk, categoryOk, List.filter_cons]

/-- Month-over-month percentage change as computed in getDashboardOverview
(part_003 lines 38-43): guarded to 0 unless the prior total is
positive. -/
def pctChange (current last : ℚ) : ℚ :=
  if 0 < last then (current - last) / last * 100 else 0

/-- Savings rate formula shared by getDashboardOverview (lines 46-48) and
getMonthlySummary (line 214): guarded to 0 unless income is positive, and
not clamped from below. -/
def savingsRateRaw (income expenses : ℚ) : ℚ :=
  if 0 < income then (income - expenses) / income * 100 else 0

/-- Dashboard savings rate as reported (line 54): the raw rate clamped at
0 by Math.max. -/
def dashboardSavingsRate (income expenses : ℚ) : ℚ :=
  max 0 (savingsRateRaw income expenses)

/-- Category share as computed in getSpendingByCategory (line 107):
guarded to 0 unless the total is positive. -/
def categoryPercentage (amount total : ℚ) : ℚ :=
  if 0 < total then amount / total * 100 else 0

theorem jsMulNum_jsDiv_zero (x q : ℚ) : jsMulNum (jsDiv x 0) 100 ≠ JsNum.num q := by
  unfold jsDiv
  rw [if_pos rfl]
  by_cases h1 : 0 < x
  · rw [if_pos h1]
    show jsMulNum JsNum.posInf 100 ≠ JsNum.num q
    rw [show jsMulNum JsNum.posInf 100 = JsNum.posInf by norm_num [jsMulNum]]
    exact fun h => JsNum.noConfusion h
  · rw [if_neg h1]
    by_cases h2 : x < 0
    · rw [if_pos h2]
      show jsMulNum JsNum.negInf 100 ≠ JsNum.num q
      rw [show jsMulNum JsNum.negInf 100 = JsNum.negInf by norm_num [jsMulNum]]
      exact fun h => JsNum.noConfusion h
    · rw [if_neg h2]
      show jsMulNum JsNum.nan 100 ≠ JsNum.num q
      exact fun h => JsNum.noConfusion h

/-- Budget for the C3 counterexample: amount misconfigured as 0, with
spending present. -/
def exBudgetC3 : Budget :=
  { id := 2, userId := 1, name := "Zero", amount := 0,
    period := BudgetPeriod.MONTHLY, startDate := 0, endDate := none,
    categoryId := none, alertEnabled := true, alertThreshold := none }

/-- Transactions for the C3 counterexample: one POSTED expense of 50 in
scope of the zero-amount budget. -/
def exTxsC3 : List Txn :=
  [ { id := 1, userId := 1, accountId := 1, amount := 50,
      type := TransactionType.EXPENSE, status := TransactionStatus.POSTED,
      date := 3, categoryId := none } ]

/-- C3 counterexample: the budget percentageUsed computation divides by an
amount of 0 without a guard and produces Infinity, not 0. -/
theorem misconfigured_budget_percentage_not_zero :
    (budgetProgress 1 exBudgetC3 exTxsC3).percentageUsed = JsNum.posInf ∧
      (budgetProgress 1 exBudgetC3 exTxsC3).percentageUsed ≠ JsNum.num 0 := by
  have hs : calculateSpending 1 exBudgetC3 exTxsC3 = 50 := by
    norm_num [calculateSpending, sumAmounts, exTxsC3, exBudgetC3, endDateOk,
      categoryOk, List.filter_cons]
  have h1 : (budgetProgress 1 exBudgetC3 exTxsC3).percentageUsed = JsNum.posInf := by
    show jsMulNum (jsDiv (calculateSpending 1 exBudgetC3 exTxsC3) exBudgetC3.amount)
      100 = JsNum.posInf
    rw [hs, show exBudgetC3.amount = 0 from rfl]
    norm_num [jsDiv, jsMulNum]
  refine ⟨h1, ?_⟩
  rw [h1]
  intro hcontra
  exact JsNum.noConfusion hcontra

/-- C3 amended: the month-over-month change, the savings rate and the
category share return 0 when their divisor is 0 (they are guarded), while
the budget percentageUsed is unguarded: with amount 0 it is never a finite
number. -/
theorem division_guards (c e a : ℚ) :
    pctChange c 0 = 0 ∧ savingsRateRaw 0 e = 0 ∧ dashboardSavingsRate 0 e = 0 ∧
      categoryPercentage a 0 = 0 ∧
      (∀ (userId : ℕ) (b : Budget) (txs : List Txn), b.amount = 0 →
         ∀ q : ℚ, (budgetProgress userId b txs).percentageUsed ≠ JsNum.num q) := by
  refine ⟨?_, ?_, ?_, ?_, ?_⟩
  · simp [pctChange]
  · simp [savingsRateRaw]
  · simp [dashboardSavingsRate, savingsRateRaw]
  · simp [categoryPercentage]
  · intro uid b txs h0 q
    show jsMulNum (jsDiv (calculateSpending uid b txs) b.amount) 100 ≠ JsNum.num q
    rw [h0]
    exact jsMulNum_jsDiv_zero _ q

/-- Witness for the amended C3 at a concrete input. -/
theorem division_guards_witness :
    pctChange 7 0 = 0 ∧
      (budgetProgress 1 exBudgetC3 exTxsC3).percentageUsed ≠ JsNum.num 0 := by
  have h := division_guards 7 3 5
  exact ⟨h.1, h.2.2.2.2 1 exBudgetC3 exTxsC3 rfl 0⟩

/-- Embedding of AnalyticsService.getTotalByType (part_003 lines 293-315):
sum of the owner's POSTED amounts of one type within a closed date
range. -/
def getTotalByType (userId : ℕ) (ty : TransactionType) (startDate endDate : ℤ)
    (txs : List Txn) : ℚ :=
  sumAmounts (txs.filter fun t =>
    decide (t.userId = userId) && decide (t.type = ty) &&
      decide (t.status = TransactionStatus.POSTED) &&
      decide (startDate ≤ t.date) && decide (t.date ≤ endDate))

/-- Embedding of AnalyticsService.getTotalBalance (lines 276-288): sum of
the balances of the active accounts of the user. -/
def getTotalBalance (userId : ℕ) (accounts : List Account) : ℚ :=
  ((accounts.filter fun a => decide (a.userId = userId) && a.isActive).map
    fun a => a.balance).sum

/-- The lastMonthComparison record of the dashboard response. -/
structure MonthComparison where
  income : ℚ
  expenses : ℚ
deriving DecidableEq, Repr

/-- Result record of getDashboardOverview. -/
structure DashboardOverview where
  totalBalance : ℚ
  monthlyIncome : ℚ
  monthlyExpenses : ℚ
  savingsRate : ℚ
  netWorth : ℚ
  lastMonthComparison : MonthComparison
deriving DecidableEq, Repr

/-- Embedding of AnalyticsService.getDashboardOverview (lines 20-61).  The
month boundaries date-fns derives from the current clock are passed as
explicit parameters. -/
def getDashboardOverview (userId : ℕ) (thisStart thisEnd lastStart lastEnd : ℤ)
    (txs : List Txn) (accounts : List Account) : DashboardOverview :=
  let thisMonthIncome :=
    getTotalByType userId TransactionType.INCOME thisStart thisEnd txs
  let thisMonthExpenses :=
    getTotalByType userId TransactionType.EXPENSE thisStart thisEnd txs
  let lastMonthIncome :=
    getTotalByType userId TransactionType.INCOME lastStart lastEnd txs
  let lastMonthExpenses :=
    getTotalByType userId TransactionType.EXPENSE lastStart lastEnd txs
  let totalBalance := getTotalBalance userId accounts
  { totalBalance := totalBalance,
    monthlyIncome := thisMonthIncome,
    monthlyExpenses := thisMonthExpenses,
    savingsRate := dashboardSavingsRate thisMonthIncome thisMonthExpenses,
    netWorth := totalBalance,
    lastMonthComparison :=
      { income := pctChange thisMonthIncome lastMonthIncome,
        expenses := pctChange thisMonthExpenses lastMonthExpenses } }

/-- Display name of the joined category of a transaction, with the
JavaScript or-else of category?.name || Uncategorized (an absent relation
or an empty name string falls back to Uncategorized). -/
def categoryName (cats : List Category) (t : Txn) : String :=
  match t.categoryId with
  | none => "Uncategorized"
  | some cid =>
    match cats.find? fun c => c.id == cid with
    | none => "Uncategorized"
    | some c => if c.name = "" then "Uncategorized" else c.name

/-- One step of the categoryMap accumulation of getSpendingByCategory
(lines 90-100): bump the bucket of the name in place, or append a fresh
bucket, the embedding of JavaScript Map get and set with insertion
order. -/
def groupStep : List (String × ℚ × ℕ) → String → ℚ → List (String × ℚ × ℕ)
  | [], n, amt => [(n, amt, 1)]
  | g :: rest, n, amt =>
    if g.1 = n then (g.1, g.2.1 + amt, g.2.2 + 1) :: rest
    else g :: groupStep rest n amt

/-- The grouping fold of getSpendingByCategory over the fetched expense
rows. -/
def buildGroups (cats : List Category) (fetched : List Txn) :
    List (String × ℚ × ℕ) :=
  fetched.foldl (fun m t => groupStep m (categoryName cats t) t.amount) []

/-- Result entries of getSpendingByCategory. -/
structure CatEntry where
  category : String
  amount : ℚ
  percentage : ℚ
  count : ℕ
deriving DecidableEq, Repr

/-- Fetch filter of getSpendingByCategory (lines 71-84): the owner's
POSTED EXPENSE rows inside the closed date range. -/
def spendingFetch (userId : ℕ) (startDate endDate : ℤ) (txs : List Txn) :
    List Txn :=
  txs.filter fun t =>
    decide (t.userId = userId) && decide (t.type = TransactionType.EXPENSE) &&
      decide (t.status = TransactionStatus.POSTED) &&
      decide (startDate ≤ t.date) && decide (t.date ≤ endDate)

/-- Embedding of AnalyticsService.getSpendingByCategory (lines 66-114):
fetch, group by category name, attach each bucket's share of the total,
sort by amount descending (the merge sort is stable, modelling the stable
Array sort). -/
def getSpendingByCategory (userId : ℕ) (startDate endDate : ℤ) (txs : List Txn)
    (cats : List Category) : List CatEntry :=
  let fetched := spendingFetch userId startDate endDate txs
  let total := sumAmounts fetched
  let result := (buildGroups cats fetched).map fun g =>
    { category := g.1, amount := g.2.1, count := g.2.2,
      percentage := categoryPercentage g.2.1 total : CatEntry }
  result.mergeSort fun x y => decide (y.amount ≤ x.amount)

/-- Result record of getMonthlySummary (lines 189-219). -/
structure MonthlySummary where
  income : ℚ
  expenses : ℚ
  net : ℚ
  savingsRate : ℚ
  transactionCount : ℕ
  categoryBreakdown : List CatEntry
  topCategories : List CatEntry
deriving DecidableEq, Repr

/-- Embedding of AnalyticsService.getMonthlySummary: month totals, the
category breakdown with its first five entries as top categories, the
POSTED transaction count, and the unclamped savings rate. -/
def getMonthlySummary (userId : ℕ) (monthStart monthEnd : ℤ) (txs : List Txn)
    (cats : List Category) : MonthlySummary :=
  let income := getTotalByType userId TransactionType.INCOME monthStart monthEnd txs
  let expenses := getTotalByType userId TransactionType.EXPENSE monthStart monthEnd txs
  let categoryBreakdown := getSpendingByCategory userId monthStart monthEnd txs cats
  { income := income,
    expenses := expenses,
    net := income - expenses,
    savingsRate := savingsRateRaw income expenses,
    transactionCount := (txs.filter fun t =>
      decide (t.userId = userId) && decide (t.status = TransactionStatus.POSTED) &&
        decide (monthStart ≤ t.date) && decide (t.date ≤ monthEnd)).length,
    categoryBreakdown := categoryBreakdown,
    topCategories := categoryBreakdown.take 5 }

/-- Transactions for the C4 counterexample: in the month, income 100 and
expenses 200. -/
def exTxsC4 : List Txn :=
  [ { id := 1, userId := 1, accountId := 1, amount := 100,
      type := TransactionType.INCOME, status := TransactionStatus.POSTED,
      date := 10, categoryId := none },
    { id := 2, userId := 1, accountId := 1, amount := 200,
      type := TransactionType.EXPENSE, status := TransactionStatus.POSTED,
      date := 20, categoryId := none } ]

/-- C4 counterexample: getMonthlySummary reports a savings rate of -100
for a month with income 100 and expenses 200 — the monthly summary does
not clamp at 0. -/
theorem monthly_savings_rate_negative :
    (getMonthlySummary 1 0 100 exTxsC4 []).savingsRate = -100 ∧
      ¬ (0 ≤ (getMonthlySummary 1 0 100 exTxsC4 []).savingsRate) := by
  have hi : getTotalByType 1 TransactionType.INCOME 0 100 exTxsC4 = 100 := by
    simp [getTotalByType, sumAmounts, exTxsC4, List.filter_cons]
  have he : getTotalByType 1 TransactionType.EXPENSE 0 100 exTxsC4 = 200 := by
    simp [getTotalByType, sumAmounts, exTxsC4, List.filter_cons]
  have hr : (getMonthlySummary 1 0 100 exTxsC4 []).savingsRate = -100 := by
    show savingsRateRaw (getTotalByType 1 TransactionType.INCOME 0 100 exTxsC4)
      (getTotalByType 1 TransactionType.EXPENSE 0 100 exTxsC4) = -100
    rw [hi, he]
    norm_num [savingsRateRaw]
  refine ⟨hr, ?_⟩
  rw [hr]
  norm_num

/-- C4 amended: the dashboard savings rate is clamped at 0 by Math.max and
never negative, while the getMonthlySummary savings rate (also used for
the year-to-date monthly summaries) is unclamped: it is 0 when income is
0, nonnegative when expenses do not exceed a positive income, and strictly
negative when expenses exceed a positive income. -/
theorem savings_rate_clamping (userId : ℕ) (ts te ls le : ℤ) (txs : List Txn)
    (accounts : List Account) (cats : List Category) :
    0 ≤ (getDashboardOverview userId ts te ls le txs accounts).savingsRate ∧
      ((getMonthlySummary userId ts te txs cats).income = 0 →
        (getMonthlySummary userId ts te txs cats).savingsRate = 0) ∧
      (0 < (getMonthlySummary userId ts te txs cats).income →
        (getMonthlySummary userId ts te txs cats).expenses ≤
          (getMonthlySummary userId ts te txs cats).income →
        0 ≤ (getMonthlySummary userId ts te txs cats).savingsRate) ∧
      (0 < (getMonthlySummary userId ts te txs cats).income →
        (getMonthlySummary userId ts te txs cats).income <
          (getMonthlySummary userId ts te txs cats).expenses →
        (getMonthlySummary userId ts te txs cats).savingsRate < 0) := by
  refine ⟨?_, ?_, ?_, ?_⟩
  · show 0 ≤ dashboardSavingsRate _ _
    exact le_max_left 0 _
  · intro h0
    show savingsRateRaw (getMonthlySummary userId ts te txs cats).income _ = 0
    rw [h0]
    simp [savingsRateRaw]
  · intro hpos hle
    show 0 ≤ savingsRateRaw (getMonthlySummary userId ts te txs cats).income
      (getMonthlySummary userId ts te txs cats).expenses
    rw [savingsRateRaw, if_pos hpos]
    have h1 : 0 ≤ (getMonthlySummary userId ts te txs cats).income -
        (getMonthlySummary userId ts te txs cats).expenses := by linarith
    have h2 : 0 ≤ ((getMonthlySummary userId ts te txs cats).income -
        (getMonthlySummary userId ts te txs cats).expenses) /
        (getMonthlySummary userId ts te txs cats).income :=
      div_nonneg h1 (le_of_lt hpos)
    linarith
  · intro hpos hlt
    show savingsRateRaw (getMonthlySummary userId ts te txs cats).income
      (getMonthlySummary userId ts te txs cats).expenses < 0
    rw [savingsRateRaw, if_pos hpos]
    have h1 : (getMonthlySummary userId ts te txs cats).income -
        (getMonthlySummary userId ts te txs cats).expenses < 0 := by linarith
    have h2 : ((getMonthlySummary userId ts te txs cats).income -
        (getMonthlySummary userId ts te txs cats).expenses) /
        (getMonthlySummary userId ts te txs cats).income < 0 :=
      div_neg_of_neg_of_pos h1 hpos
    linarith

/-- Witness for the amended C4 at a concrete input: the dashboard rate is
clamped to 0 while the monthly summary rate is negative for the same
month. -/
theorem savings_rate_clamping_witness :
    0 ≤ (getDashboardOverview 1 0 100 200 300 exTxsC4 []).savingsRate ∧
      (getMonthlySummary 1 0 100 exTxsC4 []).savingsRate < 0 := by
  have h := savings_rate_clamping 1 0 100 200 300 exTxsC4 [] []
  have hi : getTotalByType 1 TransactionType.INCOME 0 100 exTxsC4 = 100 := by
    simp [getTotalByType, sumAmounts, exTxsC4, List.filter_cons]
  have he : getTotalByType 1 TransactionType.EXPENSE 0 100 exTxsC4 = 200 := by
    simp [getTotalByType, sumAmounts, exTxsC4, List.filter_cons]
  refine ⟨h.1, h.2.2.2 ?_ ?_⟩
  · show (0 : ℚ) < getTotalByType 1 TransactionType.INCOME 0 100 exTxsC4
    rw [hi]
    norm_num
  · show getTotalByType 1 TransactionType.INCOME 0 100 exTxsC4 <
      getTotalByType 1 TransactionType.EXPENSE 0 100 exTxsC4
    rw [hi, he]
    norm_num

/-- C9: the month-over-month change reported by getDashboardOverview is
exactly 0 whenever the corresponding last-month total is 0, whatever the
current month totals. -/
theorem mom_change_zero_when_last_zero (userId : ℕ) (ts te ls le : ℤ)
    (txs : List Txn) (accounts : List Account) :
    (getTotalByType userId TransactionType.INCOME ls le txs = 0 →
       (getDashboardOverview userId ts te ls le txs
         accounts).lastMonthComparison.income = 0) ∧
    (getTotalByType userId TransactionType.EXPENSE ls le txs = 0 →
       (getDashboardOverview userId ts te ls le txs
         accounts).lastMonthComparison.expenses = 0) := by
  constructor
  · intro h
    show pctChange (getTotalByType userId TransactionType.INCOME ts te txs)
      (getTotalByType userId TransactionType.INCOME ls le txs) = 0
    rw [h]
    simp [pctChange]
  · intro h
    show pctChange (getTotalByType userId TransactionType.EXPENSE ts te txs)
      (getTotalByType userId TransactionType.EXPENSE ls le txs) = 0
    rw [h]
    simp [pctChange]

/-- Witness for C9 at a concrete input: a current month with income and
expenses but an empty prior month reports both changes as 0. -/
theorem mom_change_zero_when_last_zero_witness :
    (getDashboardOverview 1 0 100 200 300 exTxsC4 []).lastMonthComparison.income
        = 0 ∧
      (getDashboardOverview 1 0 100 200 300 exTxsC4 []).lastMonthComparison.expenses
        = 0 := by
  have h := mom_change_zero_when_last_zero 1 0 100 200 300 exTxsC4 []
  refine ⟨h.1 ?_, h.2 ?_⟩ <;>
    simp [getTotalByType, sumAmounts, exTxsC4, List.filter_cons]

theorem sumAmounts_cons (t : Txn) (ts : List Txn) :
    sumAmounts (t :: ts) = t.amount + sumAmounts ts := by
  simp [sumAmounts]

theorem groupStep_sum (m : List (String × ℚ × ℕ)) (n : String) (a : ℚ) :
    ((groupStep m n a).map fun g => g.2.1).sum = ((m.map fun g => g.2.1).sum) + a := by
  induction m with
  | nil => simp [groupStep]
  | cons g rest ih =>
    by_cases hg : g.1 = n
    · simp only [groupStep, if_pos hg, List.map_cons, List.sum_cons]
      ring
    · simp only [groupStep, if_neg hg, List.map_cons, List.sum_cons, ih]
      ring

theorem foldl_group_sum (cats : List Category) (l : List Txn) :
    ∀ m : List (String × ℚ × ℕ),
      ((l.foldl (fun m t => groupStep m (categoryName cats t) t.amount) m).map
        fun g => g.2.1).sum = ((m.map fun g => g.2.1).sum) + sumAmounts l := by
  induction l with
  | nil =>
    intro m
    simp [sumAmounts]
  | cons t ts ih =>
    intro m
    show ((ts.foldl (fun m t => groupStep m (categoryName cats t) t.amount)
        (groupStep m (categoryName cats t) t.amount)).map fun g => g.2.1).sum = _
    rw [ih (groupStep m (categoryName cats t) t.amount), groupStep_sum,
      sumAmounts_cons]
    ring

theorem buildGroups_sum (cats : List Category) (l : List Txn) :
    ((buildGroups cats l).map fun g => g.2.1).sum = sumAmounts l := by
  have h := foldl_group_sum cats l []
  simpa [buildGroups] using h

theorem sum_map_pct (l : List (String × ℚ × ℕ)) (t : ℚ) :
    (l.map fun g => g.2.1 / t * 100).sum = ((l.map fun g => g.2.1).sum) / t * 100 := by
  induction l with
  | nil => simp
  | cons x xs ih =>
    simp only [List.map_cons, List.sum_cons, ih]
    ring

theorem pct_sum_eq_100 (groups : List (String × ℚ × ℕ)) (total : ℚ)
    (hpos : 0 < total)
    (hsum : ((groups.map fun g => g.2.1)).sum = total) :
    ((List.mergeSort (groups.map fun g =>
        { category := g.1, amount := g.2.1, count := g.2.2,
          percentage := categoryPercentage g.2.1 total : CatEntry })
        fun x y => decide (y.amount ≤ x.amount)).map
      fun c => c.percentage).sum = 100 := by
  have hperm := List.mergeSort_perm (groups.map fun g =>
      { category := g.1, amount := g.2.1, count := g.2.2,
        percentage := categoryPercentage g.2.1 total : CatEntry })
    fun x y => decide (y.amount ≤ x.amount)
  rw [List.Perm.sum_eq (List.Perm.map (fun c : CatEntry => c.percentage) hperm)]
  rw [List.map_map]
  have hfun : ((fun c : CatEntry => c.percentage) ∘ fun g : String × ℚ × ℕ =>
      { category := g.1, amount := g.2.1, count := g.2.2,
        percentage := categoryPercentage g.2.1 total : CatEntry }) =
      fun g : String × ℚ × ℕ => g.2.1 / total * 100 := by
    funext g
    simp [Function.comp, categoryPercentage, if_pos hpos]
  rw [hfun, sum_map_pct, hsum, div_self (ne_of_gt hpos)]
  norm_num

/-- C8: when the total of matched expense amounts is positive the bucket
percentages of getSpendingByCategory sum to exactly 100 (exact rationals
stand in for floats, so the epsilon is 0), and when the total is 0 — with
the positive amounts the input validation enforces — the result is
empty. -/
theorem category_percentages_sum (userId : ℕ) (s e : ℤ) (txs : List Txn)
    (cats : List Category) :
    (0 < sumAmounts (spendingFetch userId s e txs) →
       ((getSpendingByCategory userId s e txs cats).map fun c => c.percentage).sum
         = 100) ∧
    ((∀ t ∈ spendingFetch userId s e txs, 0 < t.amount) →
       sumAmounts (spendingFetch userId s e txs) = 0 →
       getSpendingByCategory userId s e txs cats = []) := by
  constructor
  · intro htotal
    show ((List.mergeSort
        ((buildGroups cats (spendingFetch userId s e txs)).map fun g =>
          { category := g.1, amount := g.2.1, count := g.2.2,
            percentage := categoryPercentage g.2.1
              (sumAmounts (spendingFetch userId s e txs)) : CatEntry })
        fun x y => decide (y.amount ≤ x.amount)).map fun c => c.percentage).sum
      = 100
    exact pct_sum_eq_100 _ _ htotal (buildGroups_sum cats _)
  · intro hall h0
    have hempty : spendingFetch userId s e txs = [] := by
      by_contra hne
      have hmapne : (spendingFetch userId s e txs).map (fun t => t.amount) ≠ [] := by
        simpa using hne
      have hpos : 0 < ((spendingFetch userId s e txs).map fun t => t.amount).sum := by
        apply List.sum_pos
        · intro x hx
          obtain ⟨t, ht, rfl⟩ := List.mem_map.mp hx
          exact hall t ht
        · exact hmapne
      unfold sumAmounts at h0
      rw [h0] at hpos
      exact lt_irrefl 0 hpos
    simp [getSpendingByCategory, hempty, buildGroups]

/-- Category row for the C8 witness. -/
def exCatC8 : Category :=
  { id := 1, userId := some 1, isSystem := false, name := "Food" }

/-- Transactions for the C8 witness: expenses 60 (categorized) and 40
(uncategorized) inside the range. -/
def exTxsC8 : List Txn :=
  [ { id := 1, userId := 1, accountId := 1, amount := 60,
      type := TransactionType.EXPENSE, status := TransactionStatus.POSTED,
      date := 10, categoryId := some 1 },
    { id := 2, userId := 1, accountId := 1, amount := 40,
      type := TransactionType.EXPENSE, status := TransactionStatus.POSTED,
      date := 20, categoryId := none } ]

/-- Witness for C8 at a concrete input. -/
theorem category_percentages_sum_witness :
    ((getSpendingByCategory 1 0 100 exTxsC8 [exCatC8]).map
        fun c => c.percentage).sum = 100 ∧
      getSpendingByCategory 1 0 100 [] [exCatC8] = [] := by
  constructor
  · apply (category_percentages_sum 1 0 100 exTxsC8 [exCatC8]).1
    have ht : sumAmounts (spendingFetch 1 0 100 exTxsC8) = 100 := by
      simp [spendingFetch, sumAmounts, exTxsC8, List.filter_cons]
      norm_num
    rw [ht]
    norm_num
  · apply (category_percentages_sum 1 0 100 [] [exCatC8]).2
    · intro t ht
      simp [spendingFetch] at ht
    · rfl

/-- The data carried by an alert message of getBudgetAlerts: an overage
message carries the absolute overage amount Math.abs(remaining), a usage
message carries the used percentage.  The toFixed string formatting is
dropped; the numeric payload is kept exactly. -/
inductive AlertMessage
  | overage (budgetName : String) (amount : ℚ)
  | usage (budgetName : String) (percentage : JsNum)
deriving DecidableEq, Repr

/-- Threshold resolution budget.alertThreshold || 80 with JavaScript
or-else semantics: an absent or zero threshold falls back to 80. -/
def effectiveThreshold (t : Option ℚ) : ℚ :=
  match t with
  | some v => if v = 0 then 80 else v
  | none => 80

/-- Loop of getBudgetAlerts (budget.service.ts lines 205-221), keeping the
continue and push control flow over the budgets with progress. -/
def alertsLoop : List BudgetProgress → List (BudgetProgress × AlertMessage)
  | [] => []
  | bp :: rest =>
    if !bp.budget.alertEnabled then alertsLoop rest
    else if bp.isOverBudget then
      (bp, AlertMessage.overage bp.budget.name (abs bp.remaining)) :: alertsLoop rest
    else if jsGe bp.percentageUsed (effectiveThreshold bp.budget.alertThreshold) then
      (bp, AlertMessage.usage bp.budget.name bp.percentageUsed) :: alertsLoop rest
    else alertsLoop rest

/-- Embedding of BudgetService.getBudgetAlerts (lines 199-224): run the
alert loop over getBudgets with no period filter. -/
def getBudgetAlerts (userId : ℕ) (budgets : List Budget) (txs : List Txn) :
    List (BudgetProgress × AlertMessage) :=
  alertsLoop (getBudgets userId none budgets txs)

/-- Per-budget alert decision in the shape of the claim: nothing unless
alerts are enabled; an overage message when over budget; otherwise a usage
message exactly when the used percentage reaches the threshold. -/
def alertFor (bp : BudgetProgress) : Option (BudgetProgress × AlertMessage) :=
  if bp.budget.alertEnabled then
    if bp.isOverBudget then
      some (bp, AlertMessage.overage bp.budget.name (abs bp.remaining))
    else if jsGe bp.percentageUsed (effectiveThreshold bp.budget.alertThreshold) then
      some (bp, AlertMessage.usage bp.budget.name bp.percentageUsed)
    else none
  else none

theorem alertsLoop_eq_filterMap (l : List BudgetProgress) :
    alertsLoop l = l.filterMap alertFor := by
  induction l with
  | nil => rfl
  | cons bp rest ih =>
    cases hE : bp.budget.alertEnabled with
    | false => simp [alertsLoop, alertFor, hE, ih]
    | true =>
      cases hO : bp.isOverBudget with
      | true => simp [alertsLoop, alertFor, hE, hO, ih]
      | false =>
        cases hT : jsGe bp.percentageUsed (effectiveThreshold bp.budget.alertThreshold) with
        | true => simp [alertsLoop, alertFor, hE, hO, hT, ih]
        | false => simp [alertsLoop, alertFor, hE, hO, hT, ih]

theorem alertFor_fst (bp : BudgetProgress) (p : BudgetProgress × AlertMessage)
    (h : alertFor bp = some p) : p.1 = bp := by
  unfold alertFor at h
  split at h
  · split at h
    · rw [Option.some.injEq] at h
      rw [← h]
    · split at h
      · rw [Option.some.injEq] at h
        rw [← h]
      · exact Option.noConfusion h
  · exact Option.noConfusion h

theorem filterMap_alertFor_fst_sublist (l : List BudgetProgress) :
    ((l.filterMap alertFor).map Prod.fst).Sublist l := by
  induction l with
  | nil => simp
  | cons bp rest ih =>
    cases hA : alertFor bp with
    | none =>
      rw [List.filterMap_cons_none hA]
      exact ih.cons bp
    | some p =>
      rw [List.filterMap_cons_some hA]
      rw [List.map_cons, alertFor_fst bp p hA]
      exact ih.cons₂ bp

/-- C7: getBudgetAlerts is the per-budget filterMap of the alert decision,
hence emits at most one message per listed budget (the emitted budgets
form a sublist of the progress list); every emitted message belongs to an
alert-enabled budget and is the overage message exactly when the budget is
over budget, else the usage message with the threshold reached (the
over-budget branch takes precedence); and every alert-enabled budget that
is over budget or at threshold gets a message. -/
theorem budget_alerts_spec (userId : ℕ) (budgets : List Budget) (txs : List Txn) :
    getBudgetAlerts userId budgets txs =
        (getBudgets userId none budgets txs).filterMap alertFor ∧
      ((getBudgetAlerts userId budgets txs).map Prod.fst).Sublist
        (getBudgets userId none budgets txs) ∧
      (∀ bp msg, (bp, msg) ∈ getBudgetAlerts userId budgets txs →
         bp.budget.alertEnabled = true ∧
           ((bp.isOverBudget = true ∧
               msg = AlertMessage.overage bp.budget.name (abs bp.remaining)) ∨
             (bp.isOverBudget = false ∧
               jsGe bp.percentageUsed (effectiveThreshold bp.budget.alertThreshold)
                 = true ∧
               msg = AlertMessage.usage bp.budget.name bp.percentageUsed))) ∧
      (∀ bp ∈ getBudgets userId none budgets txs, bp.budget.alertEnabled = true →
         (bp.isOverBudget = true ∨
           jsGe bp.percentageUsed (effectiveThreshold bp.budget.alertThreshold)
             = true) →
         ∃ msg, (bp, msg) ∈ getBudgetAlerts userId budgets txs) := by
  have heq : getBudgetAlerts userId budgets txs =
      (getBudgets userId none budgets txs).filterMap alertFor :=
    alertsLoop_eq_filterMap _
  refine ⟨heq, ?_, ?_, ?_⟩
  · rw [heq]
    exact filterMap_alertFor_fst_sublist _
  · intro bp msg hmem
    rw [heq] at hmem
    obtain ⟨b, hb, hsome⟩ := List.mem_filterMap.mp hmem
    have hfst : b = bp := by
      have := alertFor_fst b (bp, msg) hsome
      exact this.symm
    subst hfst
    unfold alertFor at hsome
    split at hsome
    · rename_i hE
      refine ⟨hE, ?_⟩
      split at hsome
      · rename_i hO
        rw [Option.some.injEq, Prod.mk.injEq] at hsome
        exact Or.inl ⟨hO, hsome.2.symm⟩
      · rename_i hO
        split at hsome
        · rename_i hT
          rw [Option.some.injEq, Prod.mk.injEq] at hsome
          exact Or.inr ⟨Bool.not_eq_true _ ▸ Bool.of_not_eq_true hO, hT, hsome.2.symm⟩
        · exact Option.noConfusion hsome
    · exact Option.noConfusion hsome
  · intro bp hmem hE hcond
    rw [heq]
    cases hO : bp.isOverBudget with
    | true =>
      refine ⟨AlertMessage.overage bp.budget.name (abs bp.remaining), ?_⟩
      apply List.mem_filterMap.mpr
      refine ⟨bp, hmem, ?_⟩
      unfold alertFor
      rw [if_pos hE, if_pos hO]
    | false =>
      have hT : jsGe bp.percentageUsed (effectiveThreshold bp.budget.alertThreshold)
          = true := by
        rcases hcond with h | h
        · rw [hO] at h
          exact Bool.noConfusion h
        · exact h
      refine ⟨AlertMessage.usage bp.budget.name bp.percentageUsed, ?_⟩
      apply List.mem_filterMap.mpr
      refine ⟨bp, hmem, ?_⟩
      unfold alertFor
      rw [if_pos hE, if_neg (by simp [hO]), if_pos hT]

/-- Budget for the C7 witness: limit 300, alerts on, threshold 80. -/
def exBudgetC7 : Budget :=
  { id := 3, userId := 1, name := "Food", amount := 300,
    period := BudgetPeriod.MONTHLY, startDate := 0, endDate := none,
    categoryId := none, alertEnabled := true, alertThreshold := some 80 }

/-- Transactions for the C7 witness: one POSTED expense of 260 in
scope. -/
def exTxsC7 : List Txn :=
  [ { id := 1, userId := 1, accountId := 1, amount := 260,
      type := TransactionType.EXPENSE, status := TransactionStatus.POSTED,
      date := 4, categoryId := none } ]

/-- Witness for C7 at a concrete input: the 260-of-300 budget is at 86.67
percent, above the threshold of 80, so it receives a message. -/
theorem budget_alerts_spec_witness :
    ∃ msg, (budgetProgress 1 exBudgetC7 exTxsC7, msg) ∈
      getBudgetAlerts 1 [exBudgetC7] exTxsC7 := by
  apply (budget_alerts_spec 1 [exBudgetC7] exTxsC7).2.2.2
    (budgetProgress 1 exBudgetC7 exTxsC7)
  · rw [show getBudgets 1 none [exBudgetC7] exTxsC7 =
        [budgetProgress 1 exBudgetC7 exTxsC7] from rfl]
    exact List.mem_cons_self _ _
  · rfl
  · right
    have hs : calculateSpending 1 exBudgetC7 exTxsC7 = 260 := by
      simp [calculateSpending, sumAmounts, exTxsC7, exBudgetC7, endDateOk,
        categoryOk, List.filter_cons]
    have hp : (budgetProgress 1 exBudgetC7 exTxsC7).percentageUsed =
        JsNum.num (260 / 300 * 100) := by
      show jsMulNum (jsDiv (calculateSpending 1 exBudgetC7 exTxsC7)
        exBudgetC7.amount) 100 = JsNum.num (260 / 300 * 100)
      rw [hs, show exBudgetC7.amount = 300 from rfl]
      rw [jsDiv, if_neg (by norm_num)]
      rfl
    show jsGe (budgetProgress 1 exBudgetC7 exTxsC7).percentageUsed
      (effectiveThreshold (budgetProgress 1 exBudgetC7
        exTxsC7).budget.alertThreshold) = true
    rw [hp]
    show decide ((80 : ℚ) ≤ 260 / 300 * 100) = true
    rw [decide_eq_true_eq]
    norm_num

/-- Trend period selector of getSpendingTrends. -/
inductive Period
  | week
  | month
  | year
deriving DecidableEq, Repr

/-- One bucket of the getSpendingTrends response; the date field keeps the
interval start instant instead of the formatted label. -/
structure TrendBucket where
  date : ℤ
  income : ℚ
  expenses : ℚ
  net : ℚ
deriving DecidableEq, Repr

/-- Grouping of getSpendingTrends (part_003 lines 157-181) over the
already-fetched transactions: for week and month the interval bounds are
the single instant of the interval entry itself (the code uses the
interval for both bounds); for year they are the month boundaries som and
eom, standing for the startOfMonth and endOfMonth of the external
date-fns library. -/
def trendGroup (period : Period) (som eom : ℤ → ℤ) (intervals : List ℤ)
    (txs : List Txn) : List TrendBucket :=
  intervals.map fun interval =>
    let intervalStart := if period = Period.year then som interval else interval
    let intervalEnd := if period = Period.year then eom interval else interval
    let its := txs.filter fun t =>
      decide (intervalStart ≤ t.date) && decide (t.date ≤ intervalEnd)
    let income := sumAmounts (its.filter fun t =>
      decide (t.type = TransactionType.INCOME))
    let expenses := sumAmounts (its.filter fun t =>
      decide (t.type = TransactionType.EXPENSE))
    { date := interval, income := income, expenses := expenses,
      net := income - expenses }

/-- Embedding of AnalyticsService.getSpendingTrends (lines 119-184): fetch
the owner's POSTED rows inside the period range, then group per interval.
The interval list and the period boundaries date-fns computes from the
clock are passed as parameters. -/
def getSpendingTrends (userId : ℕ) (period : Period) (som eom : ℤ → ℤ)
    (startDate endDate : ℤ) (intervals : List ℤ) (txs : List Txn) :
    List TrendBucket :=
  trendGroup period som eom intervals
    (txs.filter fun t =>
      decide (t.userId = userId) && decide (t.status = TransactionStatus.POSTED) &&
        decide (startDate ≤ t.date) && decide (t.date ≤ endDate))

/-- Transaction for the C6 failing input: a POSTED expense of 100 at one
hour past midnight of the first day (timestamps in milliseconds, day
length 86400000). -/
def exTxC6 : Txn :=
  { id := 1, userId := 1, accountId := 1, amount := 100,
    type := TransactionType.EXPENSE, status := TransactionStatus.POSTED,
    date := 3600000, categoryId := none }

/-- C6, evaluation at the failing input: the transaction passes the period
fetch filter, yet with day buckets (period month, intervals at the starts
of two days) every bucket reports income 0 and expenses 0 — the 100 at
01:00 is counted nowhere, because the day-bucket filter compares against
the single instant interval start on both sides. -/
theorem trends_drop_intraday_transaction :
    ((fun t => decide (t.userId = 1) &&
        decide (t.status = TransactionStatus.POSTED) &&
        decide ((0 : ℤ) ≤ t.date) && decide (t.date ≤ 172799999)) exTxC6 = true) ∧
      getSpendingTrends 1 Period.month (fun i => i) (fun i => i) 0 172799999
          [0, 86400000] [exTxC6] =
        [ { date := 0, income := 0, expenses := 0, net := 0 },
          { date := 86400000, income := 0, expenses := 0, net := 0 } ] := by
  constructor
  · decide
  · simp [getSpendingTrends, trendGroup, sumAmounts, exTxC6, List.filter_cons]

end FinTracker
